import Mathlib

/-!
Shallow embedding of the PAM PostgreSQL session pipeline
(`pam-pgsql-proxy-service.ts` and `pam-pgsql-tcp-gateway-service.ts`).

JavaScript `Map` objects are modelled as association lists with
insertion-order semantics (`alistSet` replaces in place, appends when the
key is absent).  Sockets and driver connections are opaque handles
allocated from a counter; the effect of calling `destroy()` or `end()`
on them is tracked in explicit effect lists so that cleanup properties
can be stated.  External collaborators (DAL lookups, the gateway-v2
service, TLS handshake outcomes, the driver query) are supplied through
environment records.
-/

/-! ### Association-list model of JavaScript `Map` -/

def alistLookup {α : Type} (k : String) : List (String × α) → Option α
  | [] => none
  | (k', v) :: rest => if k' = k then some v else alistLookup k rest

def alistSet {α : Type} (k : String) (v : α) : List (String × α) → List (String × α)
  | [] => [(k, v)]
  | (k', v') :: rest => if k' = k then (k, v) :: rest else (k', v') :: alistSet k v rest

def alistErase {α : Type} (k : String) : List (String × α) → List (String × α)
  | [] => []
  | (k', v') :: rest => if k' = k then alistErase k rest else (k', v') :: alistErase k rest

def countKey {α : Type} (k : String) : List (String × α) → Nat
  | [] => 0
  | (k', _) :: rest => (if k' = k then 1 else 0) + countKey k rest

/-- JavaScript falsiness for an optional string field
(`undefined`, `null` and `""` are falsy). -/
def falsy : Option String → Bool
  | none => true
  | some s => s.isEmpty

/-! ### Records consumed by the proxy service -/

inductive PamSessionStatus
  | starting
  | active
  | ended
deriving DecidableEq, Repr

/-- Session record returned by `pamSessionDAL.findById`.
`expiresAt` is a millisecond timestamp when present. -/
structure PamSession where
  status : PamSessionStatus
  accountId : String
  expiresAt : Option Int
deriving DecidableEq, Repr

structure PamAccount where
  id : String
  resourceId : String
deriving DecidableEq, Repr

structure PamResourceRecord where
  id : String
  gatewayId : Option String
deriving DecidableEq, Repr

/-- Error values thrown by the services (`NotFoundError` / `BadRequestError`
from `@app/lib/errors`), reduced to their constructor and message. -/
inductive AppError
  | notFound (message : String)
  | badRequest (message : String)
deriving DecidableEq, Repr

def AppError.message : AppError → String
  | notFound m => m
  | badRequest m => m

/-! ### Gateway connection-details bundles -/

/-- The `relay` / `gateway` sub-objects of the nested bundle returned by
`gatewayV2Service.getPAMConnectionDetails`. -/
structure CertBundle where
  clientCertificate : Option String
  clientPrivateKey : Option String
  serverCertificateChain : Option String
deriving DecidableEq, Repr

structure NestedGatewayDetails where
  relayHost : Option String
  relay : Option CertBundle
  gateway : Option CertBundle
deriving DecidableEq, Repr

/-- Flat tunnel-details record handed to the TCP gateway service
(`PostgresGatewayConnectionDetails`; the TypeScript interface declares the
fields as `string` but the proxy passes through optional values, which the
gateway service then tests for falsiness). -/
structure TunnelDetails where
  relayHost : Option String
  relayClientCertificate : Option String
  relayClientPrivateKey : Option String
  relayServerCertificateChain : Option String
  gatewayClientCertificate : Option String
  gatewayClientPrivateKey : Option String
  gatewayServerCertificateChain : Option String
  sessionId : String
deriving DecidableEq, Repr

/-- The `tunnelDetails` object built inside
`PamPostgresProxyService.executeQueryThroughTunnel` (lines 161-170):
optional chaining `gatewayDetails.relay?.clientCertificate` is `Option.bind`. -/
def flattenGatewayDetails (gatewayDetails : NestedGatewayDetails) (sessionId : String) :
    TunnelDetails where
  relayHost := gatewayDetails.relayHost
  relayClientCertificate := gatewayDetails.relay.bind (fun r => r.clientCertificate)
  relayClientPrivateKey := gatewayDetails.relay.bind (fun r => r.clientPrivateKey)
  relayServerCertificateChain := gatewayDetails.relay.bind (fun r => r.serverCertificateChain)
  gatewayClientCertificate := gatewayDetails.gateway.bind (fun g => g.clientCertificate)
  gatewayClientPrivateKey := gatewayDetails.gateway.bind (fun g => g.clientPrivateKey)
  gatewayServerCertificateChain := gatewayDetails.gateway.bind (fun g => g.serverCertificateChain)
  sessionId := sessionId

/-! ### TCP gateway service (`PamPostgresTcpGatewayService`) -/

/-- Normalized query result produced by `executeQueryByType`. -/
structure PgQueryResult where
  fields : List (String × String)
  rows : List (List String)
  rowCount : Int
  success : Bool
deriving DecidableEq, Repr

/-- Outcomes of the external I/O performed by the tunnel path:
the two TLS handshakes and the driver-level query. -/
structure TunnelEnv where
  relayConnects : Bool
  relayAuthorized : Bool
  gatewayConnects : Bool
  gatewayAlpn : Bool
  queryResult : Except String PgQueryResult
deriving Repr

/-- `PostgresTunnelConnection`: the tunnel handle stored in `activeTunnels`. -/
structure TunnelConn where
  relaySocket : Nat
  gatewaySocket : Nat
  isActive : Bool
deriving DecidableEq, Repr

/-- State of a `PamPostgresTcpGatewayService` instance plus the socket
effects of an execution: `nextSock` allocates socket handles, `openSockets`
records every socket returned by `tls.connect`, `destroyedSockets` records
every socket on which `destroy()` was called. -/
structure GatewayServiceState where
  nextSock : Nat
  openSockets : List Nat
  destroyedSockets : List Nat
  activeTunnels : List (String × TunnelConn)
deriving DecidableEq, Repr

/-- Effect of `socket.destroy()` guarded by `!socket.destroyed`. -/
def destroySocket (s : Nat) (st : GatewayServiceState) : GatewayServiceState :=
  if s ∈ st.destroyedSockets then st
  else { st with destroyedSockets := s :: st.destroyedSockets }

/-- `PamPostgresTcpGatewayService.createRelayConnection` (lines 71-117):
checks the three relay certificate fields for falsiness before calling
`tls.connect`; the socket exists in every connect branch. -/
def createRelayConnection (env : TunnelEnv) (d : TunnelDetails) (st : GatewayServiceState) :
    Except String Nat × GatewayServiceState :=
  if falsy d.relayClientCertificate || falsy d.relayClientPrivateKey ||
      falsy d.relayServerCertificateChain then
    (Except.error "Missing relay TLS certificates or keys", st)
  else if env.relayConnects then
    if env.relayAuthorized then
      (Except.ok st.nextSock,
       { st with nextSock := st.nextSock + 1, openSockets := st.nextSock :: st.openSockets })
    else
      (Except.error "Relay TLS authorization failed",
       { st with nextSock := st.nextSock + 1, openSockets := st.nextSock :: st.openSockets })
  else
    (Except.error "Relay TLS connection error",
     { st with nextSock := st.nextSock + 1, openSockets := st.nextSock :: st.openSockets })

/-- `PamPostgresTcpGatewayService.createGatewayConnection` (lines 119-164):
checks the three gateway certificate fields, then starts the inner TLS
handshake over the relay socket. -/
def createGatewayConnection (env : TunnelEnv) (relaySocket : Nat) (d : TunnelDetails)
    (st : GatewayServiceState) : Except String Nat × GatewayServiceState :=
  if falsy d.gatewayClientCertificate || falsy d.gatewayClientPrivateKey ||
      falsy d.gatewayServerCertificateChain then
    (Except.error "Missing gateway TLS certificates or keys", st)
  else if env.gatewayConnects then
    if env.gatewayAlpn then
      (Except.ok st.nextSock,
       { st with nextSock := st.nextSock + 1, openSockets := st.nextSock :: st.openSockets })
    else
      (Except.error "Gateway TLS handshake failed",
       { st with nextSock := st.nextSock + 1, openSockets := st.nextSock :: st.openSockets })
  else
    (Except.error "Gateway TLS connection error",
     { st with nextSock := st.nextSock + 1, openSockets := st.nextSock :: st.openSockets })

/-- `PamPostgresTcpGatewayService.closeTunnel` (lines 239-257): if the
session has a registered tunnel, destroy the gateway socket, then the relay
socket (destroy errors swallowed), then delete the registry entry. -/
def closeTunnel (sessionId : String) (st : GatewayServiceState) : GatewayServiceState :=
  match alistLookup sessionId st.activeTunnels with
  | none => st
  | some tunnel =>
      let st2 := destroySocket tunnel.relaySocket (destroySocket tunnel.gatewaySocket st)
      { st2 with activeTunnels := alistErase sessionId st2.activeTunnels }

/-- `PamPostgresTcpGatewayService.executeQueryThroughTunnel` (lines 35-69):
relay handshake, gateway handshake, register the tunnel, run the query,
`closeTunnel` on both the success and the catch path. -/
def executeQueryThroughTunnel (env : TunnelEnv) (sessionId : String) (d : TunnelDetails)
    (st : GatewayServiceState) : Except String PgQueryResult × GatewayServiceState :=
  match createRelayConnection env d st with
  | (Except.error e, st1) => (Except.error e, closeTunnel sessionId st1)
  | (Except.ok relaySock, st1) =>
    match createGatewayConnection env relaySock d st1 with
    | (Except.error e, st2) => (Except.error e, closeTunnel sessionId st2)
    | (Except.ok gatewaySock, st2) =>
      let tunnel : TunnelConn :=
        { relaySocket := relaySock, gatewaySocket := gatewaySock, isActive := true }
      let st3 : GatewayServiceState :=
        { st2 with activeTunnels := alistSet sessionId tunnel st2.activeTunnels }
      match env.queryResult with
      | Except.ok result => (Except.ok result, closeTunnel sessionId st3)
      | Except.error e => (Except.error e, closeTunnel sessionId st3)

/-! ### Relay host parsing (`createRelayConnection`, lines 75-99) -/

/-- `String.prototype.includes(":")` on the character list of the string. -/
def jsIncludes (sep : Char) : List Char → Bool
  | [] => false
  | c :: rest => if c = sep then true else jsIncludes sep rest

/-- `String.prototype.split(sep)`: every (possibly empty) segment. -/
def jsSplit (sep : Char) : List Char → List (List Char)
  | [] => [[]]
  | c :: rest =>
      match jsSplit sep rest with
      | [] => [[]]
      | seg :: segs => if c = sep then [] :: seg :: segs else (c :: seg) :: segs

def jsWhitespace (c : Char) : Bool :=
  c = ' ' || c = '\t' || c = '\n' || c = '\r'

def digitsToNat (ds : List Char) : Nat :=
  ds.foldl (fun acc c => acc * 10 + (c.toNat - 48)) 0

/-- Decimal-digit prefix of `parseInt(s, 10)`; `none` is `NaN`. -/
def jsParseDigits (s : List Char) : Option Nat :=
  match s.takeWhile Char.isDigit with
  | [] => none
  | ds => some (digitsToNat ds)

/-- Sign handling of `parseInt(s, 10)` after whitespace has been skipped. -/
def jsParseSigned : List Char → Option Int
  | [] => none
  | c :: rest =>
      if c = '-' then (jsParseDigits rest).map (fun n => -(n : Int))
      else if c = '+' then (jsParseDigits rest).map (fun n => (n : Int))
      else (jsParseDigits (c :: rest)).map (fun n => (n : Int))

/-- `parseInt(s, 10)`: skip leading whitespace, optional sign, decimal
digit prefix; `none` is `NaN`. -/
def jsParseInt (s : List Char) : Option Int :=
  jsParseSigned (s.dropWhile jsWhitespace)

/-- Lines 75-82: `host = relayHost; port = 8443;` then on a colon,
destructure the first two segments of `split(":")` and `parseInt` the
port.  The port is `none` when `parseInt` yields `NaN`. -/
def parseRelayHost (relayHost : List Char) : List Char × Option Int :=
  if jsIncludes ':' relayHost then
    match jsSplit ':' relayHost with
    | hostPart :: portStr :: _ => (hostPart, jsParseInt portStr)
    | hostPart :: [] => (hostPart, none)
    | [] => (relayHost, none)
  else (relayHost, some 8443)

/-- The connect target of the relay TLS config (lines 90-99):
`host`, `port` and `servername := host`. -/
structure RelayTarget where
  host : List Char
  port : Option Int
  servername : List Char
deriving DecidableEq, Repr

def relayTlsTarget (relayHost : List Char) : RelayTarget where
  host := (parseRelayHost relayHost).1
  port := (parseRelayHost relayHost).2
  servername := (parseRelayHost relayHost).1

/-! ### Proxy service (`PamPostgresProxyService`) -/

/-- Responses of the external collaborators consumed by one
`executeQuery` invocation.  `session`, `account` and `resource` are the
DAL lookups; `credentials` is the credential-vault call (its errors
propagate as thrown); `gatewayResponse` is
`gatewayV2Service.getPAMConnectionDetails` (it may throw, or resolve to
`null`, or resolve to a nested bundle). -/
structure ProxyEnv where
  session : Option PamSession
  account : Option PamAccount
  resource : Option PamResourceRecord
  credentials : Except AppError Unit
  gatewayResponse : Except String (Option NestedGatewayDetails)

/-- `PamPostgresProxyService.validateSession` (lines 73-88). -/
def validateSession (penv : ProxyEnv) (now : Int) (sessionId : String) :
    Except AppError PamSession :=
  match penv.session with
  | none =>
      Except.error (AppError.notFound ("Session with ID '" ++ sessionId ++ "' not found"))
  | some s =>
      if s.status = PamSessionStatus.ended then
        Except.error (AppError.badRequest "Session has ended")
      else
        match s.expiresAt with
        | some t =>
            if t ≤ now then Except.error (AppError.badRequest "Session has expired")
            else Except.ok s
        | none => Except.ok s

/-- `PamPostgresProxyService.getResourceForSession` (lines 90-106). -/
def getResourceForSession (penv : ProxyEnv) : Except AppError PamResourceRecord :=
  match penv.account with
  | none => Except.error (AppError.notFound "Account not found")
  | some _ =>
      match penv.resource with
      | none => Except.error (AppError.notFound "Resource not found")
      | some r =>
          if falsy r.gatewayId then
            Except.error (AppError.badRequest "Resource does not have a gateway configured")
          else Except.ok r

/-- `PamPostgresProxyService.getGatewayConnectionDetails` (lines 113-140):
the inner null-check throw and any service error are both caught by the
method's own `catch`, which rethrows
`BadRequest("Failed to get gateway connection details for TCP tunnel")`. -/
def getGatewayConnectionDetails (penv : ProxyEnv) : Except AppError NestedGatewayDetails :=
  match penv.gatewayResponse with
  | Except.error _ =>
      Except.error (AppError.badRequest "Failed to get gateway connection details for TCP tunnel")
  | Except.ok none =>
      Except.error (AppError.badRequest "Failed to get gateway connection details for TCP tunnel")
  | Except.ok (some d) => Except.ok d

/-- Body of the `try` block of `PamPostgresProxyService.executeQuery`
(lines 47-65): validate, resolve, fetch credentials and gateway details,
flatten, delegate to the TCP gateway service.  The line 53 null check on
the connection details is unreachable because
`getGatewayConnectionDetails` throws instead of returning a falsy value. -/
def executeQueryInner (penv : ProxyEnv) (tenv : TunnelEnv) (now : Int) (sessionId : String)
    (gst : GatewayServiceState) : Except AppError PgQueryResult × GatewayServiceState :=
  match validateSession penv now sessionId with
  | Except.error e => (Except.error e, gst)
  | Except.ok _ =>
    match getResourceForSession penv with
    | Except.error e => (Except.error e, gst)
    | Except.ok _ =>
      match penv.credentials with
      | Except.error e => (Except.error e, gst)
      | Except.ok _ =>
        match getGatewayConnectionDetails penv with
        | Except.error e => (Except.error e, gst)
        | Except.ok details =>
          match executeQueryThroughTunnel tenv sessionId
              (flattenGatewayDetails details sessionId) gst with
          | (Except.ok r, gst') => (Except.ok r, gst')
          | (Except.error m, gst') => (Except.error (AppError.badRequest m), gst')

/-- `PamPostgresProxyService.executeQuery` (lines 44-71): the catch-all
rewraps every thrown error as `BadRequest` carrying the inner message. -/
def executeQuery (penv : ProxyEnv) (tenv : TunnelEnv) (now : Int) (sessionId : String)
    (gst : GatewayServiceState) : Except AppError PgQueryResult × GatewayServiceState :=
  match executeQueryInner penv tenv now sessionId gst with
  | (Except.ok r, gst') => (Except.ok r, gst')
  | (Except.error e, gst') => (Except.error (AppError.badRequest e.message), gst')

/-! ### Direct connection pool (`PAMSessionConnectionPool`) -/

inductive ResourceKind
  | postgres
  | mysql
deriving DecidableEq, Repr

structure SessionCredentials where
  host : String
  port : Int
  database : String
  username : String
  password : String
  sslEnabled : Bool
  sslRejectUnauthorized : Bool
  sslCertificate : Option String
deriving DecidableEq, Repr

structure PooledConnection where
  sessionId : String
  connection : Nat
  resourceType : ResourceKind
  createdAt : Int
  lastUsed : Int
deriving DecidableEq, Repr

/-- State of a `PAMSessionConnectionPool`: the `connections` map, a
driver-connection allocator and the list of connections on which the
driver `end()` has been called. -/
structure PoolState where
  connections : List (String × PooledConnection)
  nextConn : Nat
  closedConns : List Nat
deriving DecidableEq, Repr

/-- `PAMSessionConnectionPool.createConnection` (lines 246-276):
an existing entry is refreshed and returned; otherwise a driver
connection is opened (`connectOk` is the outcome of the driver connect)
and a fresh entry inserted. -/
def createConnection (connectOk : Bool) (now : Int) (sessionId : String)
    (credentials : SessionCredentials) (resourceType : ResourceKind) (st : PoolState) :
    Except String (Nat × PoolState) :=
  match alistLookup sessionId st.connections with
  | some existing =>
      Except.ok (existing.connection,
        { st with connections :=
            alistSet sessionId { existing with lastUsed := now } st.connections })
  | none =>
      if connectOk then
        Except.ok (st.nextConn,
          { st with
              nextConn := st.nextConn + 1,
              connections :=
                alistSet sessionId
                  { sessionId := sessionId, connection := st.nextConn,
                    resourceType := resourceType, createdAt := now, lastUsed := now }
                  st.connections })
      else Except.error "Failed to open driver connection"

/-- `PAMSessionConnectionPool.getConnection` (lines 236-244). -/
def getConnection (now : Int) (sessionId : String) (st : PoolState) :
    Except String (Nat × PoolState) :=
  match alistLookup sessionId st.connections with
  | some existing =>
      Except.ok (existing.connection,
        { st with connections :=
            alistSet sessionId { existing with lastUsed := now } st.connections })
  | none => Except.error "No connection found for session. Call createConnection first."

/-- `PAMSessionConnectionPool.closeConnection` (lines 324-337): end the
driver connection and delete the entry (deletion happens in `finally`,
even if the driver `end()` throws). -/
def closeConnection (sessionId : String) (st : PoolState) : PoolState :=
  match alistLookup sessionId st.connections with
  | some pooled =>
      { st with
          connections := alistErase sessionId st.connections,
          closedConns := pooled.connection :: st.closedConns }
  | none => st

/-- `PAMSessionConnectionPool.healthCheck` (lines 339-354).  Returns the
boolean result, the new pool state, and the number of `SELECT 1` probes
issued (0 or 1).  `probeOk` is the outcome of the driver probe. -/
def healthCheck (probeOk : Bool) (sessionId : String) (st : PoolState) :
    Bool × PoolState × Nat :=
  match alistLookup sessionId st.connections with
  | none => (false, st, 0)
  | some _ =>
      if probeOk then (true, st, 1)
      else (false, closeConnection sessionId st, 1)

/-! ### Concrete sample data used by witnesses and counterexamples -/

/-- Empty gateway-service state. -/
def gwState0 : GatewayServiceState :=
  { nextSock := 0, openSockets := [], destroyedSockets := [], activeTunnels := [] }

/-- An active, non-expiring session. -/
def sessActive : PamSession :=
  { status := PamSessionStatus.active, accountId := "acc-1", expiresAt := none }

/-- An active session expiring at timestamp 5. -/
def sessExpires5 : PamSession :=
  { status := PamSessionStatus.active, accountId := "acc-1", expiresAt := some 5 }

def acc1 : PamAccount := { id := "acc-1", resourceId := "res-1" }

def res1 : PamResourceRecord := { id := "res-1", gatewayId := some "gw-1" }

/-- Nested bundle with full relay certificates but no gateway client
certificate. -/
def bundleNoGatewayCert : NestedGatewayDetails :=
  { relayHost := some "relay.example.com"
  , relay := some { clientCertificate := some "R1", clientPrivateKey := some "R2",
                    serverCertificateChain := some "R3" }
  , gateway := some { clientCertificate := none, clientPrivateKey := some "G2",
                      serverCertificateChain := some "G3" } }

/-- Nested bundle with all six certificates present. -/
def bundleFull : NestedGatewayDetails :=
  { relayHost := some "relay.example.com"
  , relay := some { clientCertificate := some "R1", clientPrivateKey := some "R2",
                    serverCertificateChain := some "R3" }
  , gateway := some { clientCertificate := some "G1", clientPrivateKey := some "G2",
                      serverCertificateChain := some "G3" } }

/-- Nested bundle whose `relay` and `gateway` sub-objects are absent. -/
def bundleEmpty : NestedGatewayDetails :=
  { relayHost := some "relay.example.com", relay := none, gateway := none }

/-- Environment in which both TLS legs succeed and the query returns the
empty result. -/
def tenvOk : TunnelEnv :=
  { relayConnects := true, relayAuthorized := true, gatewayConnects := true,
    gatewayAlpn := true,
    queryResult := Except.ok { fields := [], rows := [], rowCount := 0, success := true } }

/-- Collaborators for a fully valid invocation whose gateway bundle lacks
the gateway client certificate. -/
def penvNoGatewayCert : ProxyEnv :=
  { session := some sessActive, account := some acc1, resource := some res1,
    credentials := Except.ok (), gatewayResponse := Except.ok (some bundleNoGatewayCert) }

/-- Collaborators with an absent session record. -/
def penvNoSession : ProxyEnv :=
  { session := none, account := some acc1, resource := some res1,
    credentials := Except.ok (), gatewayResponse := Except.ok (some bundleFull) }

/-- Collaborators for a valid session whose gateway service resolves to
`null`. -/
def penvNullBundle : ProxyEnv :=
  { session := some sessActive, account := some acc1, resource := some res1,
    credentials := Except.ok (), gatewayResponse := Except.ok none }

/-- Collaborators for a session that expires exactly at timestamp 5. -/
def penvBoundary : ProxyEnv :=
  { session := some sessExpires5, account := some acc1, resource := some res1,
    credentials := Except.ok (), gatewayResponse := Except.ok (some bundleFull) }

/-- Flat details with every certificate present. -/
def dFull : TunnelDetails := flattenGatewayDetails bundleFull "sess-1"

/-- Gateway-service state that already holds a registered tunnel for
session `sess-1` whose sockets 0 and 1 are open and not destroyed. -/
def gwStatePrior : GatewayServiceState :=
  { nextSock := 2, openSockets := [1, 0], destroyedSockets := [],
    activeTunnels := [("sess-1", { relaySocket := 0, gatewaySocket := 1, isActive := true })] }

def creds0 : SessionCredentials :=
  { host := "localhost", port := 5432, database := "testdb", username := "user",
    password := "pass", sslEnabled := false, sslRejectUnauthorized := true,
    sslCertificate := none }

/-- Empty pool state. -/
def poolState0 : PoolState := { connections := [], nextConn := 0, closedConns := [] }

/-- Pool state right after `createConnection true 0 "sess-1" creds0 postgres`
on the empty pool. -/
def poolState1 : PoolState :=
  { connections :=
      [("sess-1",
        { sessionId := "sess-1", connection := 0, resourceType := ResourceKind.postgres,
          createdAt := 0, lastUsed := 0 })]
  , nextConn := 1, closedConns := [] }

/-! ### Helper lemmas -/

theorem alistLookup_set_self {α : Type} (k : String) (v : α) (m : List (String × α)) :
    alistLookup k (alistSet k v m) = some v := by
  induction m with
  | nil => simp [alistLookup, alistSet]
  | cons hd tl ih =>
      obtain ⟨k', v'⟩ := hd
      by_cases h : k' = k
      · simp [alistLookup, alistSet, h]
      · simp [alistLookup, alistSet, h, ih]

theorem alistLookup_erase_self {α : Type} (k : String) (m : List (String × α)) :
    alistLookup k (alistErase k m) = none := by
  induction m with
  | nil => simp [alistLookup, alistErase]
  | cons hd tl ih =>
      obtain ⟨k', v'⟩ := hd
      by_cases h : k' = k
      · simp [alistErase, h, ih]
      · simp [alistLookup, alistErase, h, ih]

theorem countKey_set_self {α : Type} (k : String) (v : α) (m : List (String × α)) :
    countKey k (alistSet k v m) = max 1 (countKey k m) := by
  induction m with
  | nil => simp [countKey, alistSet]
  | cons hd tl ih =>
      obtain ⟨k', v'⟩ := hd
      by_cases h : k' = k
      · simp [countKey, alistSet, h]
      · simp [countKey, alistSet, h, ih]

theorem countKey_set_other {α : Type} (k k' : String) (v : α) (m : List (String × α))
    (h : k' ≠ k) : countKey k' (alistSet k v m) = countKey k' m := by
  induction m with
  | nil => simp [countKey, alistSet, Ne.symm h]
  | cons hd tl ih =>
      obtain ⟨k'', v''⟩ := hd
      by_cases hk : k'' = k
      · subst hk
        simp [countKey, alistSet, Ne.symm h]
      · simp [countKey, alistSet, hk, ih]

theorem countKey_set_le {α : Type} (k k' : String) (v : α) (m : List (String × α))
    (h : countKey k' m ≤ 1) : countKey k' (alistSet k v m) ≤ 1 := by
  by_cases hk : k' = k
  · subst hk
    rw [countKey_set_self]
    omega
  · rw [countKey_set_other k k' v m hk]
    exact h

theorem destroySocket_mem (s x : Nat) (st : GatewayServiceState) :
    x ∈ (destroySocket s st).destroyedSockets ↔ x = s ∨ x ∈ st.destroyedSockets := by
  unfold destroySocket
  by_cases h : s ∈ st.destroyedSockets
  · rw [if_pos h]
    constructor
    · exact Or.inr
    · rintro (rfl | hx)
      · exact h
      · exact hx
  · rw [if_neg h]
    simp [List.mem_cons]

theorem destroySocket_activeTunnels (s : Nat) (st : GatewayServiceState) :
    (destroySocket s st).activeTunnels = st.activeTunnels := by
  unfold destroySocket
  split <;> rfl

theorem closeTunnel_noop (sessionId : String) (st : GatewayServiceState)
    (h : alistLookup sessionId st.activeTunnels = none) : closeTunnel sessionId st = st := by
  unfold closeTunnel
  rw [h]

theorem closeTunnel_lookup_self (sessionId : String) (st : GatewayServiceState) :
    alistLookup sessionId (closeTunnel sessionId st).activeTunnels = none := by
  unfold closeTunnel
  cases h : alistLookup sessionId st.activeTunnels with
  | none => exact h
  | some t => exact alistLookup_erase_self sessionId _

theorem closeTunnel_destroyed_mem (sessionId : String) (x : Nat) (st : GatewayServiceState) :
    x ∈ (closeTunnel sessionId st).destroyedSockets ↔
      x ∈ st.destroyedSockets ∨
        ∃ t, alistLookup sessionId st.activeTunnels = some t ∧
          (x = t.relaySocket ∨ x = t.gatewaySocket) := by
  unfold closeTunnel
  cases h : alistLookup sessionId st.activeTunnels with
  | none => simp [h]
  | some t =>
      simp only [h]
      rw [show ({ destroySocket t.relaySocket (destroySocket t.gatewaySocket st) with
            activeTunnels := alistErase sessionId
              (destroySocket t.relaySocket (destroySocket t.gatewaySocket st)).activeTunnels
          } : GatewayServiceState).destroyedSockets
          = (destroySocket t.relaySocket (destroySocket t.gatewaySocket st)).destroyedSockets
        from rfl]
      rw [destroySocket_mem, destroySocket_mem]
      constructor
      · rintro (rfl | (rfl | hx))
        · exact Or.inr ⟨t, rfl, Or.inl rfl⟩
        · exact Or.inr ⟨t, rfl, Or.inr rfl⟩
        · exact Or.inl hx
      · rintro (hx | ⟨t', ht', (rfl | rfl)⟩)
        · exact Or.inr (Or.inr hx)
        · rw [show t' = t from Option.some.inj ht'.symm ▸ rfl] at *
          exact Or.inl (by rw [Option.some.inj ht'])
        · exact Or.inr (Or.inl (by rw [Option.some.inj ht']))

theorem jsIncludes_append_sep (sep : Char) (h p : List Char) :
    jsIncludes sep (h ++ sep :: p) = true := by
  induction h with
  | nil => simp [jsIncludes]
  | cons c t ih =>
      by_cases hc : c = sep
      · simp [jsIncludes, hc]
      · simp [jsIncludes, hc, ih]

theorem jsSplit_ne_nil (sep : Char) (s : List Char) : jsSplit sep s ≠ [] := by
  cases s with
  | nil => simp [jsSplit]
  | cons c t =>
      unfold jsSplit
      cases h : jsSplit sep t with
      | nil => simp
      | cons seg segs =>
          by_cases hc : c = sep <;> simp [hc]

theorem jsSplit_no_sep (sep : Char) (s : List Char) (h : jsIncludes sep s = false) :
    jsSplit sep s = [s] := by
  induction s with
  | nil => rfl
  | cons c t ih =>
      unfold jsIncludes at h
      by_cases hc : c = sep
      · rw [if_pos hc] at h
        exact absurd h (by simp)
      · rw [if_neg hc] at h
        unfold jsSplit
        rw [ih h]
        simp [hc]

theorem jsSplit_append_sep (sep : Char) (h p : List Char) (hh : jsIncludes sep h = false) :
    jsSplit sep (h ++ sep :: p) = h :: jsSplit sep p := by
  induction h with
  | nil =>
      simp only [List.nil_append]
      cases hsp : jsSplit sep p with
      | nil => exact absurd hsp (jsSplit_ne_nil sep p)
      | cons seg segs =>
          simp only [jsSplit]
          rw [hsp]
          simp
  | cons c t ih =>
      unfold jsIncludes at hh
      by_cases hc : c = sep
      · rw [if_pos hc] at hh
        exact absurd hh (by simp)
      · rw [if_neg hc] at hh
        simp only [List.cons_append, jsSplit, List.append_eq]
        rw [ih hh]
        simp [hc]

theorem takeWhile_digits (p : List Char) (h : ∀ c ∈ p, c.isDigit = true) :
    p.takeWhile Char.isDigit = p := by
  induction p with
  | nil => rfl
  | cons c t ih =>
      have hc : c.isDigit = true := h c (List.mem_cons_self c t)
      have ht : ∀ c' ∈ t, c'.isDigit = true := fun c' hc' => h c' (List.mem_cons_of_mem c hc')
      simp [List.takeWhile, hc, ih ht]

theorem dropWhile_digits (c : Char) (t : List Char) (hc : c.isDigit = true) :
    (c :: t).dropWhile jsWhitespace = c :: t := by
  have hw : jsWhitespace c = false := by
    unfold jsWhitespace
    by_cases h1 : c = ' '
    · subst h1; exact absurd hc (by decide)
    · by_cases h2 : c = '\t'
      · subst h2; exact absurd hc (by decide)
      · by_cases h3 : c = '\n'
        · subst h3; exact absurd hc (by decide)
        · by_cases h4 : c = '\r'
          · subst h4; exact absurd hc (by decide)
          · simp [h1, h2, h3, h4]
  simp [List.dropWhile, hw]

theorem jsParseInt_digits (p : List Char) (hne : p ≠ [])
    (h : ∀ c ∈ p, c.isDigit = true) :
    jsParseInt p = some ((digitsToNat p : Nat) : Int) := by
  cases p with
  | nil => exact absurd rfl hne
  | cons c t =>
      have hc : c.isDigit = true := h c (List.mem_cons_self c t)
      have hdash : ¬(c = '-') := by
        intro hcc
        subst hcc
        exact absurd hc (by decide)
      have hplus : ¬(c = '+') := by
        intro hcc
        subst hcc
        exact absurd hc (by decide)
      unfold jsParseInt
      rw [dropWhile_digits c t hc]
      simp only [jsParseSigned]
      rw [if_neg hdash, if_neg hplus]
      unfold jsParseDigits
      rw [takeWhile_digits (c :: t) h]
      rfl

theorem jsIncludes_colon_digits (p : List Char) (h : ∀ c ∈ p, c.isDigit = true) :
    jsIncludes ':' p = false := by
  induction p with
  | nil => rfl
  | cons c t ih =>
      have hc : c.isDigit = true := h c (List.mem_cons_self c t)
      have hne : ¬(c = ':') := by
        intro hcc
        subst hcc
        exact absurd hc (by decide)
      simp [jsIncludes, hne, ih (fun c' hc' => h c' (List.mem_cons_of_mem c hc'))]

theorem getConnection_of_lookup (now : Int) (sessionId : String) (st : PoolState)
    (e : PooledConnection) (h : alistLookup sessionId st.connections = some e) :
    getConnection now sessionId st =
      Except.ok (e.connection,
        { st with connections := alistSet sessionId { e with lastUsed := now } st.connections }) := by
  unfold getConnection
  rw [h]

theorem createConnection_of_lookup (connectOk : Bool) (now : Int) (sessionId : String)
    (credentials : SessionCredentials) (kind : ResourceKind) (st : PoolState)
    (e : PooledConnection) (h : alistLookup sessionId st.connections = some e) :
    createConnection connectOk now sessionId credentials kind st =
      Except.ok (e.connection,
        { st with connections := alistSet sessionId { e with lastUsed := now } st.connections }) := by
  unfold createConnection
  rw [h]

theorem createConnection_of_lookup_none (now : Int) (sessionId : String)
    (credentials : SessionCredentials) (kind : ResourceKind) (st : PoolState)
    (h : alistLookup sessionId st.connections = none) :
    createConnection true now sessionId credentials kind st =
      Except.ok (st.nextConn,
        { st with
            nextConn := st.nextConn + 1,
            connections :=
              alistSet sessionId
                { sessionId := sessionId, connection := st.nextConn, resourceType := kind,
                  createdAt := now, lastUsed := now }
                st.connections }) := by
  unfold createConnection
  rw [h]
  rfl

/-! ### Claim theorems -/

/-- Claim C5: session validation treats the expiry boundary strictly.
For every session record with status not `Ended` and `expiresAt` present,
`validateSession` rejects with `BadRequest("Session has expired")` exactly
when `expiresAt ≤ now` (so `expiresAt = now` is expired), and succeeds
whenever `expiresAt` is strictly in the future or absent. -/
theorem validateSession_expiry_boundary_strict :
    ∀ (penv : ProxyEnv) (now : Int) (sessionId : String) (s : PamSession),
      penv.session = some s → s.status ≠ PamSessionStatus.ended →
      (∀ t, s.expiresAt = some t →
        ((validateSession penv now sessionId =
            Except.error (AppError.badRequest "Session has expired")) ↔ t ≤ now) ∧
        (now < t → validateSession penv now sessionId = Except.ok s)) ∧
      (s.expiresAt = none → validateSession penv now sessionId = Except.ok s) := by
  intro penv now sessionId s hs hstat
  simp only [validateSession, hs]
  rw [if_neg hstat]
  constructor
  · intro t ht
    simp only [ht]
    by_cases hle : t ≤ now
    · rw [if_pos hle]
      refine ⟨⟨fun _ => hle, fun _ => rfl⟩, fun hlt => absurd hle (not_le.mpr hlt)⟩
    · rw [if_neg hle]
      refine ⟨⟨fun h => absurd h (by simp), fun h => absurd h hle⟩, fun _ => rfl⟩
  · intro hnone
    simp only [hnone]

/-- Witness for C5: a session with `expiresAt = 5` checked at `now = 5`
is rejected as expired. -/
theorem validateSession_expiry_boundary_strict_witness :
    validateSession penvBoundary 5 "sess-1" =
      Except.error (AppError.badRequest "Session has expired") :=
  (((validateSession_expiry_boundary_strict penvBoundary 5 "sess-1" sessExpires5 rfl
      (by decide)).1 5 rfl).1).mpr (by decide)

/-- Claim C6: the bundle flattening is a pure projection.  Every flat
field equals the corresponding optional-chained nested field, the
sessionId is attached, and absent nested objects yield absent flat
fields (never empty strings). -/
theorem flattenGatewayDetails_pure_projection :
    ∀ (B : NestedGatewayDetails) (sessionId : String),
      (flattenGatewayDetails B sessionId).relayHost = B.relayHost ∧
      (flattenGatewayDetails B sessionId).relayClientCertificate =
        B.relay.bind (fun r => r.clientCertificate) ∧
      (flattenGatewayDetails B sessionId).relayClientPrivateKey =
        B.relay.bind (fun r => r.clientPrivateKey) ∧
      (flattenGatewayDetails B sessionId).relayServerCertificateChain =
        B.relay.bind (fun r => r.serverCertificateChain) ∧
      (flattenGatewayDetails B sessionId).gatewayClientCertificate =
        B.gateway.bind (fun g => g.clientCertificate) ∧
      (flattenGatewayDetails B sessionId).gatewayClientPrivateKey =
        B.gateway.bind (fun g => g.clientPrivateKey) ∧
      (flattenGatewayDetails B sessionId).gatewayServerCertificateChain =
        B.gateway.bind (fun g => g.serverCertificateChain) ∧
      (flattenGatewayDetails B sessionId).sessionId = sessionId ∧
      (B.relay = none →
        (flattenGatewayDetails B sessionId).relayClientCertificate = none ∧
        (flattenGatewayDetails B sessionId).relayClientPrivateKey = none ∧
        (flattenGatewayDetails B sessionId).relayServerCertificateChain = none) ∧
      (B.gateway = none →
        (flattenGatewayDetails B sessionId).gatewayClientCertificate = none ∧
        (flattenGatewayDetails B sessionId).gatewayClientPrivateKey = none ∧
        (flattenGatewayDetails B sessionId).gatewayServerCertificateChain = none) := by
  intro B sessionId
  refine ⟨rfl, rfl, rfl, rfl, rfl, rfl, rfl, rfl, ?_, ?_⟩
  · intro h
    refine ⟨?_, ?_, ?_⟩ <;> simp [flattenGatewayDetails, h]
  · intro h
    refine ⟨?_, ?_, ?_⟩ <;> simp [flattenGatewayDetails, h]

/-- Witness for C6: a bundle with absent `relay` and `gateway` objects
flattens to absent certificate fields with the sessionId attached. -/
theorem flattenGatewayDetails_pure_projection_witness :
    (flattenGatewayDetails bundleEmpty "sess-1").relayClientCertificate = none ∧
    (flattenGatewayDetails bundleEmpty "sess-1").gatewayClientCertificate = none ∧
    (flattenGatewayDetails bundleEmpty "sess-1").sessionId = "sess-1" := by
  obtain ⟨-, -, -, -, -, -, -, h8, h9, h10⟩ :=
    flattenGatewayDetails_pure_projection bundleEmpty "sess-1"
  exact ⟨(h9 rfl).1, (h10 rfl).1, h8⟩

/-- Claim C7: parsing `relayHost` for the relay leg.  Without a colon the
target is `(relayHost, 8443)`; for `host:port` with a numeric port the
target is `(host, port)`; the SNI servername equals the host portion in
both cases. -/
theorem relayTlsTarget_parse :
    ∀ (s h p : List Char),
      (jsIncludes ':' s = false →
        relayTlsTarget s = { host := s, port := some 8443, servername := s }) ∧
      (jsIncludes ':' h = false → p ≠ [] → (∀ c ∈ p, c.isDigit = true) →
        relayTlsTarget (h ++ ':' :: p) =
          { host := h, port := some ((digitsToNat p : Nat) : Int), servername := h }) := by
  intro s h p
  constructor
  · intro hs
    simp [relayTlsTarget, parseRelayHost, hs]
  · intro hh hne hdig
    simp [relayTlsTarget, parseRelayHost, jsIncludes_append_sep ':' h p,
          jsSplit_append_sep ':' h p hh,
          jsSplit_no_sep ':' p (jsIncludes_colon_digits p hdig),
          jsParseInt_digits p hne hdig]

/-- Witness for C7 at `relay` and `relay:8443`. -/
theorem relayTlsTarget_parse_witness :
    relayTlsTarget ("relay".data) =
      { host := "relay".data, port := some 8443, servername := "relay".data } ∧
    relayTlsTarget ("relay".data ++ ':' :: "8443".data) =
      { host := "relay".data, port := some ((digitsToNat ("8443".data) : Nat) : Int),
        servername := "relay".data } :=
  ⟨(relayTlsTarget_parse ("relay".data) [] []).1 (by decide),
   (relayTlsTarget_parse [] ("relay".data) ("8443".data)).2 (by decide) (by decide) (by decide)⟩

/-- Claim C8: `closeTunnel` is idempotent on the registry state (running
it twice equals running it once, destroyed-stream effects included), and
`closeTunnel` on an absent sessionId is a no-op. -/
theorem closeTunnel_idempotent :
    ∀ (sessionId : String) (st : GatewayServiceState),
      closeTunnel sessionId (closeTunnel sessionId st) = closeTunnel sessionId st ∧
      (alistLookup sessionId st.activeTunnels = none → closeTunnel sessionId st = st) :=
  fun sessionId st =>
    ⟨closeTunnel_noop sessionId (closeTunnel sessionId st)
        (closeTunnel_lookup_self sessionId st),
     closeTunnel_noop sessionId st⟩

/-- Witness for C8: closing a tunnel for an unknown session on the empty
registry leaves the state unchanged. -/
theorem closeTunnel_idempotent_witness :
    closeTunnel "sess-1" gwState0 = gwState0 :=
  (closeTunnel_idempotent "sess-1" gwState0).2 rfl

/-- Claim C10: `healthCheck` on a sessionId with no pooled entry returns
`false` without throwing, issues no probe query, and leaves the pool map
unchanged; only a present entry whose probe fails is closed and removed. -/
theorem healthCheck_absent_session_noop :
    ∀ (st : PoolState) (sessionId : String),
      (alistLookup sessionId st.connections = none →
        ∀ probeOk, healthCheck probeOk sessionId st = (false, st, 0)) ∧
      (∀ e, alistLookup sessionId st.connections = some e →
        healthCheck true sessionId st = (true, st, 1) ∧
        healthCheck false sessionId st = (false, closeConnection sessionId st, 1) ∧
        alistLookup sessionId (closeConnection sessionId st).connections = none ∧
        e.connection ∈ (closeConnection sessionId st).closedConns) := by
  intro st sessionId
  constructor
  · intro h probeOk
    unfold healthCheck
    rw [h]
  · intro e he
    refine ⟨?_, ?_, ?_, ?_⟩
    · simp [healthCheck, he]
    · simp [healthCheck, he]
    · simp only [closeConnection, he]
      exact alistLookup_erase_self sessionId st.connections
    · simp [closeConnection, he]

/-- Witness for C10: an absent key is a no-op on a one-entry pool, and a
failing probe on the present key closes and removes the entry. -/
theorem healthCheck_absent_session_noop_witness :
    healthCheck true "missing" poolState1 = (false, poolState1, 0) ∧
    healthCheck false "sess-1" poolState1 = (false, closeConnection "sess-1" poolState1, 1) := by
  refine ⟨(healthCheck_absent_session_noop poolState1 "missing").1 rfl true, ?_⟩
  exact (((healthCheck_absent_session_noop poolState1 "sess-1").2 _ rfl).2).1

/-- Claim C9: after `createConnection` returns connection `c`, a
subsequent `getConnection` returns the same `c`; a second
`createConnection` with any credentials and kind also returns `c`
without opening a new driver connection, changing only `lastUsed`; and
the pool holds at most one entry per sessionId. -/
theorem createConnection_get_same_connection :
    ∀ (st : PoolState) (now1 now2 now3 : Int) (sessionId : String)
      (creds creds2 : SessionCredentials) (kind kind2 : ResourceKind) (connectOk2 : Bool)
      (c : Nat) (st1 : PoolState),
      createConnection true now1 sessionId creds kind st = Except.ok (c, st1) →
      (∃ st2, getConnection now2 sessionId st1 = Except.ok (c, st2)) ∧
      (∃ e, alistLookup sessionId st1.connections = some e ∧ e.connection = c ∧
        createConnection connectOk2 now3 sessionId creds2 kind2 st1 =
          Except.ok (c,
            { st1 with connections :=
                alistSet sessionId { e with lastUsed := now3 } st1.connections })) ∧
      (countKey sessionId st.connections ≤ 1 → countKey sessionId st1.connections = 1) := by
  intro st now1 now2 now3 sessionId creds creds2 kind kind2 connectOk2 c st1 hcreate
  cases h0 : alistLookup sessionId st.connections with
  | some e0 =>
      rw [createConnection_of_lookup true now1 sessionId creds kind st e0 h0] at hcreate
      simp only [Except.ok.injEq, Prod.mk.injEq] at hcreate
      obtain ⟨hc, hst⟩ := hcreate
      subst hst
      subst hc
      have hlook : alistLookup sessionId
          ({ st with connections :=
              alistSet sessionId { e0 with lastUsed := now1 } st.connections } :
            PoolState).connections = some { e0 with lastUsed := now1 } :=
        alistLookup_set_self sessionId { e0 with lastUsed := now1 } st.connections
      refine ⟨?_, ?_, ?_⟩
      · exact ⟨_, getConnection_of_lookup now2 sessionId _ { e0 with lastUsed := now1 } hlook⟩
      · exact ⟨{ e0 with lastUsed := now1 }, hlook, rfl,
          createConnection_of_lookup connectOk2 now3 sessionId creds2 kind2 _
            { e0 with lastUsed := now1 } hlook⟩
      · intro hcnt
        show countKey sessionId (alistSet sessionId { e0 with lastUsed := now1 }
          st.connections) = 1
        rw [countKey_set_self]
        omega
  | none =>
      rw [createConnection_of_lookup_none now1 sessionId creds kind st h0] at hcreate
      simp only [Except.ok.injEq, Prod.mk.injEq] at hcreate
      obtain ⟨hc, hst⟩ := hcreate
      subst hst
      subst hc
      have hlook : alistLookup sessionId
          ({ st with
              nextConn := st.nextConn + 1,
              connections :=
                alistSet sessionId
                  { sessionId := sessionId, connection := st.nextConn, resourceType := kind,
                    createdAt := now1, lastUsed := now1 }
                  st.connections } : PoolState).connections =
          some { sessionId := sessionId, connection := st.nextConn, resourceType := kind,
                 createdAt := now1, lastUsed := now1 } :=
        alistLookup_set_self sessionId _ st.connections
      refine ⟨?_, ?_, ?_⟩
      · exact ⟨_, getConnection_of_lookup now2 sessionId _ _ hlook⟩
      · exact ⟨_, hlook, rfl,
          createConnection_of_lookup connectOk2 now3 sessionId creds2 kind2 _ _ hlook⟩
      · intro hcnt
        show countKey sessionId (alistSet sessionId
          { sessionId := sessionId, connection := st.nextConn, resourceType := kind,
            createdAt := now1, lastUsed := now1 } st.connections) = 1
        rw [countKey_set_self]
        omega

/-- Witness for C9 on the empty pool. -/
theorem createConnection_get_same_connection_witness :
    (∃ st2, getConnection 1 "sess-1" poolState1 = Except.ok (0, st2)) ∧
    countKey "sess-1" poolState1.connections = 1 := by
  have h := createConnection_get_same_connection poolState0 0 1 2 "sess-1" creds0 creds0
    ResourceKind.postgres ResourceKind.mysql false 0 poolState1 rfl
  exact ⟨h.1, h.2.2 (by decide)⟩

/-- Claim C2 (amended): the catch-all at the `executeQuery` boundary
rewraps every thrown error, including resolver `NotFound` errors, as a
`BadRequest` carrying the inner message; in particular an absent session
surfaces as `BadRequest("Session with ID '...' not found")`, not as a
`NotFound` error. -/
theorem executeQuery_wraps_all_errors :
    ∀ (penv : ProxyEnv) (tenv : TunnelEnv) (now : Int) (sessionId : String)
      (gst : GatewayServiceState),
      (∀ e gst', executeQuery penv tenv now sessionId gst = (Except.error e, gst') →
        ∃ m, e = AppError.badRequest m) ∧
      (penv.session = none →
        executeQuery penv tenv now sessionId gst =
          (Except.error
             (AppError.badRequest ("Session with ID '" ++ sessionId ++ "' not found")),
           gst)) := by
  intro penv tenv now sessionId gst
  constructor
  · intro e gst' h
    unfold executeQuery at h
    cases hinner : executeQueryInner penv tenv now sessionId gst with
    | mk res g2 =>
        rw [hinner] at h
        cases res with
        | ok r => simp at h
        | error e2 =>
            simp only [Prod.mk.injEq, Except.error.injEq] at h
            exact ⟨e2.message, h.1.symm⟩
  · intro hs
    unfold executeQuery executeQueryInner validateSession
    rw [hs]
    rfl

/-- Witness for C2's amended statement: an absent session record is
surfaced as a `BadRequest`. -/
theorem executeQuery_wraps_all_errors_witness :
    executeQuery penvNoSession tenvOk 0 "sess-1" gwState0 =
      (Except.error
         (AppError.badRequest ("Session with ID '" ++ "sess-1" ++ "' not found")),
       gwState0) :=
  (executeQuery_wraps_all_errors penvNoSession tenvOk 0 "sess-1" gwState0).2 rfl

/-- Counterexample for C2 as stated: with the session record absent,
`executeQuery` fails with a `BadRequest`, never with a `NotFound`, so
resolver errors do not pass through to the caller unwrapped. -/
theorem executeQuery_absent_session_not_notFound :
    executeQuery penvNoSession tenvOk 0 "sess-1" gwState0 =
      (Except.error (AppError.badRequest "Session with ID 'sess-1' not found"), gwState0) ∧
    ∀ m, (executeQuery penvNoSession tenvOk 0 "sess-1" gwState0).1 ≠
      Except.error (AppError.notFound m) := by
  refine ⟨rfl, ?_⟩
  intro m h
  have h' : (Except.error (AppError.badRequest "Session with ID 'sess-1' not found") :
      Except AppError PgQueryResult) = Except.error (AppError.notFound m) := h
  simp at h'

/-- Claim C4 (amended): for an otherwise valid session, a null/absent
connection-details bundle from the gateway service makes `executeQuery`
fail with `BadRequest("Failed to get gateway connection details for TCP
tunnel")` (the message of the method's own catch, not the unreachable
inline check's "Failed to get gateway connection details"). -/
theorem executeQuery_null_bundle_message :
    ∀ (penv : ProxyEnv) (tenv : TunnelEnv) (now : Int) (sessionId : String)
      (gst : GatewayServiceState) (s : PamSession) (r : PamResourceRecord),
      validateSession penv now sessionId = Except.ok s →
      getResourceForSession penv = Except.ok r →
      penv.credentials = Except.ok () →
      penv.gatewayResponse = Except.ok none →
      executeQuery penv tenv now sessionId gst =
        (Except.error
           (AppError.badRequest "Failed to get gateway connection details for TCP tunnel"),
         gst) := by
  intro penv tenv now sessionId gst s r h1 h2 h3 h4
  unfold executeQuery executeQueryInner getGatewayConnectionDetails
  rw [h1, h2, h3, h4]
  rfl

/-- Witness for C4's amended statement. -/
theorem executeQuery_null_bundle_message_witness :
    executeQuery penvNullBundle tenvOk 0 "sess-1" gwState0 =
      (Except.error
         (AppError.badRequest "Failed to get gateway connection details for TCP tunnel"),
       gwState0) :=
  executeQuery_null_bundle_message penvNullBundle tenvOk 0 "sess-1" gwState0
    sessActive res1 rfl rfl rfl rfl

/-- Counterexample for C4 as stated: the surfaced message is
"Failed to get gateway connection details for TCP tunnel", not the
claimed "Failed to get gateway connection details". -/
theorem executeQuery_null_bundle_message_cex :
    executeQuery penvNullBundle tenvOk 0 "sess-1" gwState0 =
      (Except.error
         (AppError.badRequest "Failed to get gateway connection details for TCP tunnel"),
       gwState0) ∧
    (executeQuery penvNullBundle tenvOk 0 "sess-1" gwState0).1 ≠
      Except.error (AppError.badRequest "Failed to get gateway connection details") := by
  refine ⟨rfl, ?_⟩
  intro h
  have h' : (Except.error
      (AppError.badRequest "Failed to get gateway connection details for TCP tunnel") :
      Except AppError PgQueryResult) =
      Except.error (AppError.badRequest "Failed to get gateway connection details") := h
  injection h' with h2
  injection h2 with h3
  exact absurd h3 (by decide)

/-- Counterexample for C3 as stated: starting from a registry that
already holds a tunnel for `sess-1` with sockets 0 and 1, a full
successful run registers the new handle over the old entry, yet sockets
0 and 1 are never destroyed — registration does not tear down the prior
handle. -/
theorem register_replaces_without_teardown_cex :
    alistLookup "sess-1" gwStatePrior.activeTunnels =
      some { relaySocket := 0, gatewaySocket := 1, isActive := true } ∧
    (executeQueryThroughTunnel tenvOk "sess-1" dFull gwStatePrior).2 =
      { nextSock := 4, openSockets := [3, 2, 1, 0], destroyedSockets := [2, 3],
        activeTunnels := [] } ∧
    0 ∉ (executeQueryThroughTunnel tenvOk "sess-1" dFull gwStatePrior).2.destroyedSockets ∧
    1 ∉ (executeQueryThroughTunnel tenvOk "sess-1" dFull gwStatePrior).2.destroyedSockets := by
  refine ⟨rfl, rfl, ?_, ?_⟩ <;> decide

/-- Claim C3 (amended): the registry keeps at most one handle per
sessionId (`Map.set` replaces), but registering over an existing handle
does not destroy the prior handle's streams: after a full successful
run that supersedes a previously registered tunnel, the prior tunnel's
sockets have still not been destroyed. -/
theorem register_supersedes_without_teardown :
    ∀ (st : GatewayServiceState) (sessionId : String) (t0 : TunnelConn) (d : TunnelDetails)
      (env : TunnelEnv) (r : PgQueryResult),
      alistLookup sessionId st.activeTunnels = some t0 →
      falsy d.relayClientCertificate = false →
      falsy d.relayClientPrivateKey = false →
      falsy d.relayServerCertificateChain = false →
      falsy d.gatewayClientCertificate = false →
      falsy d.gatewayClientPrivateKey = false →
      falsy d.gatewayServerCertificateChain = false →
      env.relayConnects = true → env.relayAuthorized = true →
      env.gatewayConnects = true → env.gatewayAlpn = true →
      env.queryResult = Except.ok r →
      t0.relaySocket < st.nextSock → t0.gatewaySocket < st.nextSock →
      t0.relaySocket ∉ st.destroyedSockets → t0.gatewaySocket ∉ st.destroyedSockets →
      (executeQueryThroughTunnel env sessionId d st).1 = Except.ok r ∧
      t0.relaySocket ∉ (executeQueryThroughTunnel env sessionId d st).2.destroyedSockets ∧
      t0.gatewaySocket ∉ (executeQueryThroughTunnel env sessionId d st).2.destroyedSockets ∧
      alistLookup sessionId (executeQueryThroughTunnel env sessionId d st).2.activeTunnels =
        none ∧
      (∀ (k k' : String) (v : TunnelConn) (m : List (String × TunnelConn)),
        countKey k' m ≤ 1 → countKey k' (alistSet k v m) ≤ 1) := by
  intro st sessionId t0 d env r h0 hc1 hc2 hc3 hc4 hc5 hc6 he1 he2 he3 he4 hq
    hlt1 hlt2 hd1 hd2
  have hrelay : createRelayConnection env d st =
      (Except.ok st.nextSock,
       { st with nextSock := st.nextSock + 1, openSockets := st.nextSock :: st.openSockets }) := by
    simp [createRelayConnection, hc1, hc2, hc3, he1, he2]
  have hgw : createGatewayConnection env st.nextSock d
      { st with nextSock := st.nextSock + 1, openSockets := st.nextSock :: st.openSockets } =
      (Except.ok (st.nextSock + 1),
       { st with nextSock := st.nextSock + 1 + 1,
                 openSockets := (st.nextSock + 1) :: st.nextSock :: st.openSockets }) := by
    simp [createGatewayConnection, hc4, hc5, hc6, he3, he4]
  have hrun : executeQueryThroughTunnel env sessionId d st =
      (Except.ok r,
       closeTunnel sessionId
         { st with nextSock := st.nextSock + 1 + 1,
                   openSockets := (st.nextSock + 1) :: st.nextSock :: st.openSockets,
                   activeTunnels :=
                     alistSet sessionId
                       { relaySocket := st.nextSock, gatewaySocket := st.nextSock + 1,
                         isActive := true }
                       st.activeTunnels }) := by
    simp only [executeQueryThroughTunnel, hrelay, hgw, hq]
  rw [hrun]
  have hlookset : alistLookup sessionId
      (alistSet sessionId
        { relaySocket := st.nextSock, gatewaySocket := st.nextSock + 1, isActive := true }
        st.activeTunnels) =
      some { relaySocket := st.nextSock, gatewaySocket := st.nextSock + 1, isActive := true } :=
    alistLookup_set_self sessionId _ st.activeTunnels
  refine ⟨rfl, ?_, ?_, closeTunnel_lookup_self sessionId _, ?_⟩
  · rw [closeTunnel_destroyed_mem]
    rintro (hmem | ⟨t, ht, hx⟩)
    · exact hd1 hmem
    · rw [hlookset] at ht
      obtain rfl := Option.some.inj ht
      rcases hx with hx | hx <;> simp only [] at hx <;> omega
  · rw [closeTunnel_destroyed_mem]
    rintro (hmem | ⟨t, ht, hx⟩)
    · exact hd2 hmem
    · rw [hlookset] at ht
      obtain rfl := Option.some.inj ht
      rcases hx with hx | hx <;> simp only [] at hx <;> omega
  · intro k k' v m hm
    exact countKey_set_le k k' v m hm

/-- Witness for C3's amended statement on the concrete prior-registry
state. -/
theorem register_supersedes_without_teardown_witness :
    (executeQueryThroughTunnel tenvOk "sess-1" dFull gwStatePrior).1 =
      Except.ok { fields := [], rows := [], rowCount := 0, success := true } ∧
    0 ∉ (executeQueryThroughTunnel tenvOk "sess-1" dFull gwStatePrior).2.destroyedSockets := by
  have h := register_supersedes_without_teardown gwStatePrior "sess-1"
    { relaySocket := 0, gatewaySocket := 1, isActive := true } dFull tenvOk
    { fields := [], rows := [], rowCount := 0, success := true }
    rfl rfl rfl rfl rfl rfl rfl rfl rfl rfl rfl rfl (by decide) (by decide)
    (by decide) (by decide)
  exact ⟨h.1, h.2.1⟩

/-- Claim C1: on a valid session whose gateway bundle lacks the gateway
client certificate, while the relay TLS leg has already succeeded, the
pipeline fails with the `Missing gateway TLS certificates or keys`
error and leaves no registry entry — but the relay socket (handle 0)
remains open and is never destroyed, because the tunnel is registered
only after both handshakes and the catch-path `closeTunnel` therefore
finds nothing to destroy.  This refutes the claimed cleanup guarantee. -/
theorem executeQuery_missing_gateway_cert_leaks_relay :
    executeQuery penvNoGatewayCert tenvOk 0 "sess-1" gwState0 =
      (Except.error (AppError.badRequest "Missing gateway TLS certificates or keys"),
       { nextSock := 1, openSockets := [0], destroyedSockets := [], activeTunnels := [] }) ∧
    0 ∈ (executeQuery penvNoGatewayCert tenvOk 0 "sess-1" gwState0).2.openSockets ∧
    0 ∉ (executeQuery penvNoGatewayCert tenvOk 0 "sess-1" gwState0).2.destroyedSockets ∧
    (executeQuery penvNoGatewayCert tenvOk 0 "sess-1" gwState0).2.activeTunnels = [] := by
  refine ⟨rfl, ?_, ?_, rfl⟩ <;> decide
